import Mathlib

/-!
Verification of the decision engine of `bybit_shortbot/bot.py`.

Prices, rates and quantities are modelled as rationals (`ℚ`).  A raw numeric
field coming from the exchange is `Option ℚ`: `none` models a malformed field,
which `safe_float` coerces to the default (the Python `safe_float`).
Timestamps are integers.  Python dictionaries keyed by symbol are association
lists `List (String × _)`.
-/

namespace BybitShort

/-- Trade status: `"OPEN"` / `"CLOSED"` strings in the source. -/
inductive TradeStatus
  | OPEN
  | CLOSED
deriving DecidableEq, Repr

/-- Close reason: `"TP"` / `"SL"` / `"FUNDING_GUARD"` strings in the source. -/
inductive CloseReason
  | TP
  | SL
  | FUNDING_GUARD
deriving DecidableEq, Repr

/-- The decision-relevant part of `BotConfig` (bot.py lines 13-47). -/
structure BotConfig where
  quote : String
  min_pump_from_low24_pct : ℚ
  near_high_ratio : ℚ
  min_turnover_usdt : ℚ
  stall_candles : Nat
  notional_usdt : ℚ
  tp_from_high_pct : ℚ
  sl_mult : ℚ
  enable_funding_guard : Bool
  funding_guard_ratio : ℚ
deriving DecidableEq, Repr

/-- The default configuration `CFG = BotConfig()` of the source. -/
def CFG : BotConfig where
  quote := "USDT"
  min_pump_from_low24_pct := 35
  near_high_ratio := 88/100
  min_turnover_usdt := 5000000
  stall_candles := 2
  notional_usdt := 20
  tp_from_high_pct := 3/10
  sl_mult := 2
  enable_funding_guard := true
  funding_guard_ratio := 1

/-- Python `sym.endswith(quote)`: suffix test on the character data. -/
def str_ends_with (s suf : String) : Bool :=
  List.isSuffixOf suf.data s.data

/-- `safe_float(x, default)`: a malformed field (`none`) becomes the default. -/
def safe_float (x : Option ℚ) (default : ℚ) : ℚ :=
  match x with
  | some v => v
  | none => default

/-- Python `int()` truncation toward zero of a rational. -/
def py_int (q : ℚ) : Int :=
  Int.tdiv q.num (q.den : Int)

/-- One raw ticker row as served to `candidate_from_ticker`; `none` fields are
malformed or missing values. -/
structure RawTicker where
  symbol : String
  lastPrice : Option ℚ
  highPrice24h : Option ℚ
  lowPrice24h : Option ℚ
  turnover24h : Option ℚ
  fundingRate : Option ℚ
  nextFundingTime : Option ℚ
deriving DecidableEq, Repr

/-- The candidate dictionary returned by `candidate_from_ticker`. -/
structure Candidate where
  symbol : String
  last : ℚ
  high24 : ℚ
  low24 : ℚ
  turnover : ℚ
  pump_from_low24_pct : ℚ
  near_high : ℚ
  funding_rate : ℚ
  next_funding_ms : Int
deriving DecidableEq, Repr

/-- One entry of `tick_map` built in `main` (symbol, last, funding rate,
next-funding time). -/
structure TickerInfo where
  symbol : String
  last : ℚ
  funding_rate : ℚ
  next_funding_ms : Int
deriving DecidableEq, Repr

/-- One closed candle; the source reads indices 2 (high), 3 (low), 4 (close)
of the kline row through `safe_float`. -/
structure Candle where
  start_ts : Option ℚ
  open_p : Option ℚ
  high : Option ℚ
  low : Option ℚ
  close : Option ℚ
deriving DecidableEq, Repr

/-- One watchlist entry (`state["watch"][sym]`). -/
structure WatchEntry where
  local_high : ℚ
  stall : Nat
  blocked : Bool
  updated_ts : Int
  created_ts : Int
deriving DecidableEq, Repr

/-- One paper trade record as produced by `make_trade`. -/
structure Trade where
  id : String
  symbol : String
  status : TradeStatus
  created_ts : Int
  open_ts : Int
  side : String
  notional_usdt : ℚ
  qty : ℚ
  entry : ℚ
  tp : ℚ
  sl : ℚ
  local_high : ℚ
  funding_rate_at_open : ℚ
  next_funding_ms_at_open : Int
  close_ts : Option Int
  close_reason : Option CloseReason
  close_price : Option ℚ
deriving DecidableEq, Repr

/-- `candidate_from_ticker` (bot.py lines 142-178). -/
def candidate_from_ticker (cfg : BotConfig) (t : RawTicker) : Option Candidate :=
  if str_ends_with t.symbol cfg.quote then
    let last := safe_float t.lastPrice 0
    let high24 := safe_float t.highPrice24h 0
    let low24 := safe_float t.lowPrice24h 0
    let turnover := safe_float t.turnover24h 0
    let funding_rate := safe_float t.fundingRate 0
    let next_funding_ms := py_int (safe_float t.nextFundingTime 0)
    if last ≤ 0 ∨ high24 ≤ 0 ∨ low24 ≤ 0 then none
    else
      let pump_from_low24 := (last - low24) / low24 * 100
      let near_high := last / high24
      if turnover < cfg.min_turnover_usdt then none
      else if pump_from_low24 < cfg.min_pump_from_low24_pct then none
      else if near_high < cfg.near_high_ratio then none
      else some
        { symbol := t.symbol
          last := last
          high24 := high24
          low24 := low24
          turnover := turnover
          pump_from_low24_pct := pump_from_low24
          near_high := near_high
          funding_rate := funding_rate
          next_funding_ms := next_funding_ms }
  else none

/-- `make_trade` (bot.py lines 184-211). -/
def make_trade (cfg : BotConfig) (symbol : String) (entry local_high : ℚ)
    (now_ts : Int) (ticker : TickerInfo) : Trade where
  id := symbol ++ ":" ++ toString now_ts
  symbol := symbol
  status := .OPEN
  created_ts := now_ts
  open_ts := now_ts
  side := "SHORT"
  notional_usdt := cfg.notional_usdt
  qty := cfg.notional_usdt / entry
  entry := entry
  tp := local_high * (1 - cfg.tp_from_high_pct)
  sl := entry * cfg.sl_mult
  local_high := local_high
  funding_rate_at_open := ticker.funding_rate
  next_funding_ms_at_open := ticker.next_funding_ms
  close_ts := none
  close_reason := none
  close_price := none

/-- `trade_pnl` (bot.py lines 213-219): defined only for CLOSED trades with a
close price; short convention `(entry - close) * qty`. -/
def trade_pnl (tr : Trade) : Option ℚ :=
  match tr.status, tr.close_price with
  | .CLOSED, some close => some ((tr.entry - close) * tr.qty)
  | _, _ => none

/-- `remaining_profit_to_tp` (bot.py lines 221-226). -/
def remaining_profit_to_tp (tr : Trade) (mark : ℚ) : ℚ :=
  if mark ≤ tr.tp then 0 else (mark - tr.tp) * tr.qty

/-- `funding_pnl_short` (bot.py lines 228-230). -/
def funding_pnl_short (notional rate : ℚ) : ℚ :=
  notional * rate

/-- `funding_guard` (bot.py lines 232-244). -/
def funding_guard (cfg : BotConfig) (tr : Trade) (ticker : TickerInfo)
    (mark : ℚ) : Bool :=
  if cfg.enable_funding_guard = false then false
  else if 0 ≤ ticker.funding_rate then false
  else if remaining_profit_to_tp tr mark ≤ 0 then false
  else decide (remaining_profit_to_tp tr mark * cfg.funding_guard_ratio ≤
      |funding_pnl_short tr.notional_usdt ticker.funding_rate|)

/-- The dictionary lookup with fallback used both in `update_open_trades`
(`tick_map.get(sym, {"funding_rate": 0.0, "last": c})`) and in the watch loop
(`tick_map.get(sym, {"last": close, "funding_rate": 0.0, "next_funding_ms": 0})`). -/
def lookup_ticker (tick_map : List (String × TickerInfo)) (sym : String)
    (fallback_last : ℚ) : TickerInfo :=
  match tick_map.lookup sym with
  | some t => t
  | none =>
    { symbol := sym
      last := fallback_last
      funding_rate := 0
      next_funding_ms := 0 }

/-- The ticker used for a symbol in a cycle with closed candle `k`: the
`tick_map` entry, else the fallback whose `last` is the candle close. -/
def ticker_of (tick_map : List (String × TickerInfo)) (sym : String)
    (k : Candle) : TickerInfo :=
  lookup_ticker tick_map sym (safe_float k.close 0)

/-- The mark price used for a symbol in a cycle with closed candle `k`
(`safe_float(ticker.get("last", c), c)`; the ticker always carries `last`). -/
def mark_of (tick_map : List (String × TickerInfo)) (sym : String)
    (k : Candle) : ℚ :=
  (ticker_of tick_map sym k).last

/-- Setting the close fields of a trade, the mutation block repeated in
`update_open_trades`. -/
def close_trade (tr : Trade) (now_ts : Int) (reason : CloseReason)
    (price : ℚ) : Trade :=
  { tr with
    status := .CLOSED
    close_ts := some now_ts
    close_reason := some reason
    close_price := some price }

/-- The per-trade body of `update_open_trades` (bot.py lines 246-292):
skip non-OPEN trades, skip when no closed candle is available, otherwise
funding guard first, then the TP/SL candle-range checks with the SL
tie-break. -/
def update_open_trade (cfg : BotConfig) (tick_map : List (String × TickerInfo))
    (now_ts : Int) (candle : Option Candle) (tr : Trade) : Trade :=
  if tr.status = .OPEN then
    match candle with
    | none => tr
    | some k =>
      let ticker := ticker_of tick_map tr.symbol k
      let mark := ticker.last
      if funding_guard cfg tr ticker mark then
        close_trade tr now_ts .FUNDING_GUARD mark
      else if safe_float k.low 0 ≤ tr.tp ∧ safe_float k.high 0 ≥ tr.sl then
        close_trade tr now_ts .SL tr.sl
      else if safe_float k.high 0 ≥ tr.sl then
        close_trade tr now_ts .SL tr.sl
      else if safe_float k.low 0 ≤ tr.tp then
        close_trade tr now_ts .TP tr.tp
      else tr
  else tr

/-- `update_open_trades` over the whole trade list: each trade is evaluated
against its own candle (the per-symbol kline fetch). -/
def update_open_trades (cfg : BotConfig) (tick_map : List (String × TickerInfo))
    (now_ts : Int) (candle_of : String → Option Candle)
    (trades : List Trade) : List Trade :=
  trades.map (fun tr => update_open_trade cfg tick_map now_ts (candle_of tr.symbol) tr)

/-- The candle update of a watch entry (bot.py lines 417-425): a new high
resets stall and unblocks, otherwise the stall counter increments. -/
def stall_update (now_ts : Int) (w : WatchEntry) (high : ℚ) : WatchEntry :=
  if w.local_high < high then
    { w with local_high := high, stall := 0, blocked := false, updated_ts := now_ts }
  else
    { w with stall := w.stall + 1, updated_ts := now_ts }

/-- One decision event appended to `state["last_events"]`; `sl` and
`funding_rate` are present only on TRIGGER events. -/
structure Event where
  ts : Int
  type : String
  symbol : String
  entry : ℚ
  tp : ℚ
  local_high : ℚ
  sl : Option ℚ
  funding_rate : Option ℚ
deriving DecidableEq, Repr

/-- Result of one watch-loop iteration for one symbol: the surviving watch
entry (if any), the trade opened (if any), the event recorded (if any), and
the cooldown timestamp set (if any). -/
structure WatchStepResult where
  watch : Option WatchEntry
  newTrade : Option Trade
  event : Option Event
  cooldown : Option Int
deriving DecidableEq, Repr

/-- The per-symbol body of the watch loop in `main` (bot.py lines 401-471):
skip when no closed candle, update the stall state, then evaluate the trigger
condition using the pre-update `blocked` flag; on trigger either record
SKIP_BELOW_TP and block, or open a trade, set the cooldown and drop the
watch entry. -/
def watch_step (cfg : BotConfig) (tick_map : List (String × TickerInfo))
    (now_ts : Int) (sym : String) (w : WatchEntry)
    (candle : Option Candle) : WatchStepResult :=
  match candle with
  | none => { watch := some w, newTrade := none, event := none, cooldown := none }
  | some k =>
    let blocked := w.blocked
    let w1 := stall_update now_ts w (safe_float k.high 0)
    if cfg.stall_candles ≤ w1.stall ∧ blocked = false then
      let tinfo := ticker_of tick_map sym k
      let entry := tinfo.last
      let tp_from_high := w1.local_high * (1 - cfg.tp_from_high_pct)
      if entry ≤ tp_from_high then
        { watch := some { w1 with blocked := true }
          newTrade := none
          event := some
            { ts := now_ts
              type := "SKIP_BELOW_TP"
              symbol := sym
              entry := entry
              tp := tp_from_high
              local_high := w1.local_high
              sl := none
              funding_rate := none }
          cooldown := none }
      else
        let tr := make_trade cfg sym entry w1.local_high now_ts tinfo
        { watch := none
          newTrade := some tr
          event := some
            { ts := now_ts
              type := "TRIGGER"
              symbol := sym
              entry := tr.entry
              tp := tr.tp
              local_high := tr.local_high
              sl := some tr.sl
              funding_rate := some tr.funding_rate_at_open }
          cooldown := some now_ts }
    else { watch := some w1, newTrade := none, event := none, cooldown := none }

/-- Running the watch loop for one symbol over a sequence of cycles, one
closed candle per cycle, collecting the trades opened; stops when the entry
is removed. -/
def watch_run (cfg : BotConfig) (tick_map : List (String × TickerInfo))
    (now_ts : Int) (sym : String) (w : WatchEntry) :
    List Candle → Option WatchEntry × List Trade
  | [] => (some w, [])
  | k :: ks =>
    let r := watch_step cfg tick_map now_ts sym w (some k)
    match r.watch with
    | some w2 =>
      let rest := watch_run cfg tick_map now_ts sym w2 ks
      (rest.1, r.newTrade.toList ++ rest.2)
    | none => (none, r.newTrade.toList)

/-- `closed = [t for t in trades if t["status"] == "CLOSED"]`. -/
def closed_trades (trades : List Trade) : List Trade :=
  trades.filter (fun t => t.status = .CLOSED)

/-- The PnL list of `print_stats`: per-trade PnLs of closed trades with the
`None` entries dropped. -/
def pnl_list (trades : List Trade) : List ℚ :=
  (closed_trades trades).filterMap trade_pnl

/-- `wins = [p for p in pnls if p > 0]`. -/
def wins_of (pnls : List ℚ) : List ℚ :=
  pnls.filter (fun p => 0 < p)

/-- `losses = [p for p in pnls if p <= 0]`. -/
def losses_of (pnls : List ℚ) : List ℚ :=
  pnls.filter (fun p => p ≤ 0)

/-- The stats line printed by `print_stats`: either the `closed=0` early
return, or the closed count / win rate / total / average / profit factor,
with `pf = none` standing for the `float("inf")` profit factor. -/
inductive StatsOutput
  | closedZero
  | stats (closed : Nat) (winrate totalPnL avgPnL : ℚ) (pf : Option ℚ)
deriving DecidableEq, Repr

/-- `print_stats` (bot.py lines 294-307) as a pure function of the trade
list. -/
def print_stats (trades : List Trade) : StatsOutput :=
  if closed_trades trades = [] then .closedZero
  else
    .stats (pnl_list trades).length
      (if pnl_list trades ≠ [] then
        ((wins_of (pnl_list trades)).length : ℚ) / ((pnl_list trades).length : ℚ) * 100
       else 0)
      (pnl_list trades).sum
      (if pnl_list trades ≠ [] then
        (pnl_list trades).sum / ((pnl_list trades).length : ℚ)
       else 0)
      (if losses_of (pnl_list trades) ≠ [] ∧ (losses_of (pnl_list trades)).sum ≠ 0 then
        some ((wins_of (pnl_list trades)).sum / |(losses_of (pnl_list trades)).sum|)
       else none)

/-! ## Concrete fixtures used by witnesses -/

/-- A concrete OPEN trade: entry 10, tp 9, sl 11, qty 2, notional 20. -/
def sample_open_trade : Trade where
  id := "XUSDT:0"
  symbol := "XUSDT"
  status := .OPEN
  created_ts := 0
  open_ts := 0
  side := "SHORT"
  notional_usdt := 20
  qty := 2
  entry := 10
  tp := 9
  sl := 11
  local_high := 12
  funding_rate_at_open := 0
  next_funding_ms_at_open := 0
  close_ts := none
  close_reason := none
  close_price := none

/-- The same trade already CLOSED. -/
def sample_closed_trade : Trade :=
  close_trade sample_open_trade 3 .TP 9

/-- The spec's example candle: low 8, high 12 (both TP 9 and SL 11 hit). -/
def candle_both : Candle where
  start_ts := some 0
  open_p := some 10
  high := some 12
  low := some 8
  close := some 10

/-- A quiet candle: low 9.5, high 10.5 (neither TP 9 nor SL 11 hit). -/
def candle_quiet : Candle where
  start_ts := some 0
  open_p := some 10
  high := some (21/2)
  low := some (19/2)
  close := some 10

/-! ## C1: order of the close decision for an OPEN trade -/

/-- C1: for every OPEN trade evaluated with a closed candle, the funding
guard is checked first and, when it fires, the trade closes with reason
FUNDING_GUARD at the mark price (TP/SL are not considered); otherwise, with
`hit_tp = (l ≤ tp)` and `hit_sl = (h ≥ sl)`: both hit closes as SL at `sl`,
only SL as SL at `sl`, only TP as TP at `tp`, and neither leaves the trade
unchanged. -/
theorem C1_close_decision_order (cfg : BotConfig)
    (tm : List (String × TickerInfo)) (now_ts : Int) (k : Candle) (tr : Trade)
    (hopen : tr.status = .OPEN) :
    (funding_guard cfg tr (ticker_of tm tr.symbol k) (mark_of tm tr.symbol k) = true →
      update_open_trade cfg tm now_ts (some k) tr =
        close_trade tr now_ts .FUNDING_GUARD (mark_of tm tr.symbol k)) ∧
    (funding_guard cfg tr (ticker_of tm tr.symbol k) (mark_of tm tr.symbol k) = false →
      ((safe_float k.low 0 ≤ tr.tp ∧ safe_float k.high 0 ≥ tr.sl →
          update_open_trade cfg tm now_ts (some k) tr = close_trade tr now_ts .SL tr.sl) ∧
       (¬ safe_float k.low 0 ≤ tr.tp ∧ safe_float k.high 0 ≥ tr.sl →
          update_open_trade cfg tm now_ts (some k) tr = close_trade tr now_ts .SL tr.sl) ∧
       (safe_float k.low 0 ≤ tr.tp ∧ ¬ safe_float k.high 0 ≥ tr.sl →
          update_open_trade cfg tm now_ts (some k) tr = close_trade tr now_ts .TP tr.tp) ∧
       (¬ safe_float k.low 0 ≤ tr.tp ∧ ¬ safe_float k.high 0 ≥ tr.sl →
          update_open_trade cfg tm now_ts (some k) tr = tr))) := by
  have e : update_open_trade cfg tm now_ts (some k) tr =
      (if funding_guard cfg tr (ticker_of tm tr.symbol k) (mark_of tm tr.symbol k) then
        close_trade tr now_ts .FUNDING_GUARD (mark_of tm tr.symbol k)
      else if safe_float k.low 0 ≤ tr.tp ∧ safe_float k.high 0 ≥ tr.sl then
        close_trade tr now_ts .SL tr.sl
      else if safe_float k.high 0 ≥ tr.sl then
        close_trade tr now_ts .SL tr.sl
      else if safe_float k.low 0 ≤ tr.tp then
        close_trade tr now_ts .TP tr.tp
      else tr) := by
    simp only [update_open_trade, hopen, if_true, mark_of]
  refine ⟨fun hfg => ?_, fun hfg => ⟨fun h => ?_, fun h => ?_, fun h => ?_, fun h => ?_⟩⟩ <;>
    rw [e] <;> simp only [hfg, if_true, if_false, Bool.false_eq_true] <;>
    first
      | rfl
      | (rw [if_pos h]
         )
      | (rw [if_neg (by tauto), if_pos h.2]
         )
      | (rw [if_neg (by tauto), if_neg (by tauto), if_pos h.1]
         )
      | (rw [if_neg (by tauto), if_neg (by tauto), if_neg (by tauto)]
         )

/-- Witness for C1 at the spec's example: candle low 8 / high 12 against
tp 9, sl 11 closes as SL at 11. -/
theorem C1_witness :
    update_open_trade CFG [] 7 (some candle_both) sample_open_trade =
      close_trade sample_open_trade 7 .SL sample_open_trade.sl := by
  have h := C1_close_decision_order CFG [] 7 candle_both sample_open_trade rfl
  have hfg : funding_guard CFG sample_open_trade
      (ticker_of [] sample_open_trade.symbol candle_both)
      (mark_of [] sample_open_trade.symbol candle_both) = false := by
    norm_num [funding_guard, ticker_of, lookup_ticker, mark_of, CFG,
      sample_open_trade, candle_both, safe_float]
  exact (h.2 hfg).1 (by norm_num [sample_open_trade, candle_both, safe_float])

/-! ## C8: CLOSED trades are immutable under evaluation -/

/-- C8: evaluating an already-CLOSED trade in any cycle is a no-op: no field
changes and the trade never transitions back to OPEN, so the close-field
transition happens at most once. -/
theorem C8_closed_trade_immutable (cfg : BotConfig)
    (tm : List (String × TickerInfo)) (now_ts : Int) (candle : Option Candle)
    (tr : Trade) (hclosed : tr.status = .CLOSED) :
    update_open_trade cfg tm now_ts candle tr = tr := by
  simp [update_open_trade, hclosed]

/-- Witness for C8: the concrete closed trade is untouched. -/
theorem C8_witness :
    update_open_trade CFG [] 7 (some candle_both) sample_closed_trade =
      sample_closed_trade :=
  C8_closed_trade_immutable CFG [] 7 (some candle_both) sample_closed_trade rfl

/-! ## C9: no candle means no state change -/

/-- C9: an OPEN trade whose symbol has no closed candle this cycle is
skipped entirely: the trade is returned unchanged. -/
theorem C9_no_candle_skips (cfg : BotConfig)
    (tm : List (String × TickerInfo)) (now_ts : Int) (tr : Trade)
    (hopen : tr.status = .OPEN) :
    update_open_trade cfg tm now_ts none tr = tr := by
  simp [update_open_trade, hopen]

/-- Witness for C9 on the concrete open trade. -/
theorem C9_witness :
    update_open_trade CFG [] 7 none sample_open_trade = sample_open_trade :=
  C9_no_candle_skips CFG [] 7 sample_open_trade rfl

/-! ## C10: symbol absent from the ticker map -/

/-- C10: when the trade's symbol is absent from the cycle's ticker map, the
substituted ticker has funding rate 0 and `last` equal to the candle close,
so the mark price is the candle close, the funding guard cannot fire, and the
trade can close only through the TP/SL candle-range checks. -/
theorem C10_absent_ticker_default (cfg : BotConfig)
    (tm : List (String × TickerInfo)) (now_ts : Int) (k : Candle) (tr : Trade)
    (hopen : tr.status = .OPEN)
    (habsent : tm.lookup tr.symbol = none) :
    ticker_of tm tr.symbol k =
      { symbol := tr.symbol
        last := safe_float k.close 0
        funding_rate := 0
        next_funding_ms := 0 } ∧
    mark_of tm tr.symbol k = safe_float k.close 0 ∧
    funding_guard cfg tr (ticker_of tm tr.symbol k) (mark_of tm tr.symbol k) = false ∧
    update_open_trade cfg tm now_ts (some k) tr =
      (if safe_float k.low 0 ≤ tr.tp ∧ safe_float k.high 0 ≥ tr.sl then
        close_trade tr now_ts .SL tr.sl
      else if safe_float k.high 0 ≥ tr.sl then
        close_trade tr now_ts .SL tr.sl
      else if safe_float k.low 0 ≤ tr.tp then
        close_trade tr now_ts .TP tr.tp
      else tr) := by
  have ht : ticker_of tm tr.symbol k =
      { symbol := tr.symbol
        last := safe_float k.close 0
        funding_rate := 0
        next_funding_ms := 0 } := by
    simp [ticker_of, lookup_ticker, habsent]
  have hfg : funding_guard cfg tr (ticker_of tm tr.symbol k)
      (mark_of tm tr.symbol k) = false := by
    rw [ht]
    simp [funding_guard]
  refine ⟨ht, by rw [mark_of, ht], hfg, ?_⟩
  simp only [update_open_trade, hopen, if_true]
  rw [show (ticker_of tm tr.symbol k).last = mark_of tm tr.symbol k from rfl, hfg]
  simp only [Bool.false_eq_true, if_false]

/-- Witness for C10: empty ticker map, quiet candle, trade stays OPEN with
mark substituted from the candle close. -/
theorem C10_witness :
    funding_guard CFG sample_open_trade
      (ticker_of [] sample_open_trade.symbol candle_quiet)
      (mark_of [] sample_open_trade.symbol candle_quiet) = false ∧
    mark_of [] sample_open_trade.symbol candle_quiet = 10 := by
  have h := C10_absent_ticker_default CFG [] 7 candle_quiet sample_open_trade rfl rfl
  exact ⟨h.2.2.1, by rw [h.2.1]; norm_num [candle_quiet, safe_float]⟩

/-! ## C2: characterization of the funding guard -/

/-- A trade with negative quantity, where the spec's
`max(0, (mark - tp) * qty)` differs from the code's remaining-profit
computation. -/
def negqty_trade : Trade :=
  { sample_open_trade with qty := -1, tp := 1 }

/-- A ticker with funding rate -1. -/
def neg_rate_ticker : TickerInfo where
  symbol := "XUSDT"
  last := 0
  funding_rate := -1
  next_funding_ms := 0

/-- C2 counterexample: at mark 0 with tp 1 and qty -1, the spec's
`remaining = max(0, (mark - tp) * qty)` is 1 > 0 and
`|notional * rate| ≥ remaining * ratio` holds, so the claim's iff predicts
the guard fires, yet the code computes a remaining of 0 (since mark ≤ tp)
and returns false. -/
theorem C2_counterexample :
    funding_guard CFG negqty_trade neg_rate_ticker 0 = false ∧
    CFG.enable_funding_guard = true ∧
    neg_rate_ticker.funding_rate < 0 ∧
    0 < max 0 ((0 - negqty_trade.tp) * negqty_trade.qty) ∧
    max 0 ((0 - negqty_trade.tp) * negqty_trade.qty) * CFG.funding_guard_ratio ≤
      |negqty_trade.notional_usdt * neg_rate_ticker.funding_rate| := by
  norm_num [funding_guard, remaining_profit_to_tp, funding_pnl_short, CFG,
    negqty_trade, neg_rate_ticker, sample_open_trade]

/-- C2 (amended): the funding guard returns true iff it is enabled, the
funding rate is strictly negative, the remaining profit to target — computed
as `(mark - tp) * qty` when `mark > tp` and `0` otherwise — is strictly
positive, and `|notional * rate| ≥ remaining * funding_guard_ratio`. -/
theorem C2_amended_funding_guard_iff (cfg : BotConfig) (tr : Trade)
    (ticker : TickerInfo) (mark : ℚ) :
    funding_guard cfg tr ticker mark = true ↔
      (cfg.enable_funding_guard = true ∧ ticker.funding_rate < 0 ∧
       (tr.tp < mark ∧ 0 < (mark - tr.tp) * tr.qty) ∧
       (mark - tr.tp) * tr.qty * cfg.funding_guard_ratio ≤
         |tr.notional_usdt * ticker.funding_rate|) := by
  unfold funding_guard remaining_profit_to_tp funding_pnl_short
  by_cases he : cfg.enable_funding_guard = true
  · by_cases hr : (0:ℚ) ≤ ticker.funding_rate
    · simp [he, hr, not_lt.mpr hr]
    · by_cases hm : mark ≤ tr.tp
      · simp [he, hr, hm, not_lt.mpr hm]
      · by_cases hq : (mark - tr.tp) * tr.qty ≤ 0
        · simp [he, hr, hm, hq, not_lt.mpr hq]
        · simp [he, hr, hm, hq, not_le.mp hr, not_le.mp hm, not_le.mp hq]
  · simp [he]

/-- Witness for C2 at the spec's concrete example: rate -0.01, notional 20,
ratio 1; the guard fires at mark 1.1 (remaining 0.1) and not at mark 1.5
(remaining 0.5). -/
theorem C2_witness :
    funding_guard CFG { sample_open_trade with qty := 1, tp := 1 }
      { symbol := "XUSDT", last := 11/10, funding_rate := -1/100, next_funding_ms := 0 }
      (11/10) = true ∧
    funding_guard CFG { sample_open_trade with qty := 1, tp := 1 }
      { symbol := "XUSDT", last := 11/10, funding_rate := -1/100, next_funding_ms := 0 }
      (3/2) = false := by
  have habs : |(1:ℚ)/5| = 1/5 := abs_of_pos (by norm_num)
  constructor
  · exact (C2_amended_funding_guard_iff CFG _ _ _).mpr
      (by norm_num [CFG, sample_open_trade, habs])
  · rw [← Bool.not_eq_true]
    intro hT
    have hc := (C2_amended_funding_guard_iff CFG _ _ _).mp hT
    norm_num [CFG, sample_open_trade, habs] at hc

/-! ## C6: the candidate filter -/

/-- C6: the candidate filter returns `none` exactly when the symbol lacks
the quote suffix, a positivity check fails on the `safe_float`-coerced
fields (malformed fields coerce to 0 and fail it), or one of the turnover /
pump-percentage / proximity thresholds is missed; a returned candidate
carries the pump percentage and proximity computed by the stated formulas. -/
theorem C6_candidate_filter (cfg : BotConfig) (t : RawTicker) :
    (candidate_from_ticker cfg t = none ↔
      (str_ends_with t.symbol cfg.quote = false ∨
       safe_float t.lastPrice 0 ≤ 0 ∨
       safe_float t.highPrice24h 0 ≤ 0 ∨
       safe_float t.lowPrice24h 0 ≤ 0 ∨
       safe_float t.turnover24h 0 < cfg.min_turnover_usdt ∨
       (safe_float t.lastPrice 0 - safe_float t.lowPrice24h 0) /
           safe_float t.lowPrice24h 0 * 100 < cfg.min_pump_from_low24_pct ∨
       safe_float t.lastPrice 0 / safe_float t.highPrice24h 0 < cfg.near_high_ratio)) ∧
    (∀ c, candidate_from_ticker cfg t = some c →
      c.pump_from_low24_pct = (c.last - c.low24) / c.low24 * 100 ∧
      c.near_high = c.last / c.high24) ∧
    (t.lastPrice = none → candidate_from_ticker cfg t = none) := by
  have hiff : candidate_from_ticker cfg t = none ↔
      (str_ends_with t.symbol cfg.quote = false ∨
       safe_float t.lastPrice 0 ≤ 0 ∨
       safe_float t.highPrice24h 0 ≤ 0 ∨
       safe_float t.lowPrice24h 0 ≤ 0 ∨
       safe_float t.turnover24h 0 < cfg.min_turnover_usdt ∨
       (safe_float t.lastPrice 0 - safe_float t.lowPrice24h 0) /
           safe_float t.lowPrice24h 0 * 100 < cfg.min_pump_from_low24_pct ∨
       safe_float t.lastPrice 0 / safe_float t.highPrice24h 0 < cfg.near_high_ratio) := by
    unfold candidate_from_ticker
    by_cases hs : str_ends_with t.symbol cfg.quote = true
    · simp only [hs, if_true]
      split_ifs with h1 h2 h3 h4 <;> simp_all [not_or] <;> tauto
    · rw [Bool.not_eq_true] at hs
      simp [hs]
  refine ⟨hiff, ?_, ?_⟩
  · intro c hc
    simp only [candidate_from_ticker] at hc
    split_ifs at hc
    injection hc with h
    subst h
    exact ⟨rfl, rfl⟩
  · intro h
    exact hiff.mpr (Or.inr (Or.inl (by simp [h, safe_float])))

/-- A ticker that passes all four checks of the default configuration. -/
def good_ticker : RawTicker where
  symbol := "ABCUSDT"
  lastPrice := some 10
  highPrice24h := some 10
  lowPrice24h := some 5
  turnover24h := some 6000000
  fundingRate := some (-1/100)
  nextFundingTime := some 0

/-- The candidate produced for `good_ticker`. -/
def good_candidate : Candidate where
  symbol := "ABCUSDT"
  last := 10
  high24 := 10
  low24 := 5
  turnover := 6000000
  pump_from_low24_pct := 100
  near_high := 1
  funding_rate := -1/100
  next_funding_ms := 0

/-- Witness for C6: the concrete passing ticker yields a candidate whose
pump percentage and proximity satisfy the formulas. -/
theorem C6_witness :
    good_candidate.pump_from_low24_pct =
      (good_candidate.last - good_candidate.low24) / good_candidate.low24 * 100 ∧
    good_candidate.near_high = good_candidate.last / good_candidate.high24 :=
  (C6_candidate_filter CFG good_ticker).2.1 good_candidate (by
    norm_num [candidate_from_ticker, good_ticker, good_candidate, CFG, safe_float,
      (show str_ends_with "ABCUSDT" "USDT" = true from by decide),
      (show py_int 0 = 0 from by decide)])

/-! ## C7: the stats aggregator -/

lemma sum_nonpos_of_all_nonpos (l : List ℚ) (h : ∀ x ∈ l, x ≤ 0) : l.sum ≤ 0 := by
  induction l with
  | nil => simp
  | cons a t ih =>
    simp only [List.sum_cons]
    have ha := h a (List.mem_cons_self a t)
    have ht := ih (fun x hx => h x (List.mem_cons_of_mem a hx))
    linarith

lemma all_zero_of_sum_zero_nonpos (l : List ℚ) (h : ∀ x ∈ l, x ≤ 0)
    (hs : l.sum = 0) : ∀ x ∈ l, x = 0 := by
  induction l with
  | nil => simp
  | cons a t ih =>
    have ha := h a (List.mem_cons_self a t)
    have ht : ∀ x ∈ t, x ≤ 0 := fun x hx => h x (List.mem_cons_of_mem a hx)
    have htsum : t.sum ≤ 0 := sum_nonpos_of_all_nonpos t ht
    simp only [List.sum_cons] at hs
    have ha0 : a = 0 := by linarith
    have hts : t.sum = 0 := by linarith
    intro x hx
    rcases List.mem_cons.mp hx with hxa | hxt
    · rw [hxa, ha0]
    · exact ih ht hts x hxt

lemma mem_losses_iff (pnls : List ℚ) (x : ℚ) :
    x ∈ losses_of pnls ↔ x ∈ pnls ∧ x ≤ 0 := by
  simp [losses_of, List.mem_filter]

/-- The zero-PnL closed trade: entry 10, closed at 10 (neither a win nor a
strict loss). -/
def zero_pnl_trade : Trade :=
  close_trade sample_open_trade 3 .TP 10

/-- C7 counterexample: a single closed trade with PnL 0 yields an infinite
profit factor (`pf = none`) although there is no winning trade (no PnL is
strictly positive), refuting "infinite iff no losing trades and at least one
winning trade". -/
theorem C7_counterexample :
    print_stats [zero_pnl_trade] = .stats 1 0 0 0 none ∧
    wins_of (pnl_list [zero_pnl_trade]) = [] := by
  have hp : trade_pnl zero_pnl_trade = some 0 := by
    norm_num [trade_pnl, zero_pnl_trade, sample_open_trade, close_trade]
  have hcl : closed_trades [zero_pnl_trade] = [zero_pnl_trade] := by
    norm_num [closed_trades, zero_pnl_trade, sample_open_trade, close_trade]
  have hlist : pnl_list [zero_pnl_trade] = [0] := by
    rw [pnl_list, hcl]
    simp [List.filterMap_cons, hp]
  constructor
  · rw [print_stats, if_neg (by rw [hcl]; simp), hlist]
    norm_num [wins_of, losses_of]
  · rw [hlist]
    norm_num [wins_of]

/-- C7 (amended): the empty closed set reports `closed=0`; on a non-empty
closed set the report carries the count and total of the computable PnLs,
the profit factor, when finite, equals the sum of the positive PnLs divided
by the absolute sum of the non-positive PnLs, and the profit factor is
infinite (`none`) iff no computable PnL is strictly negative. -/
theorem C7_amended_stats (trades : List Trade) :
    (closed_trades trades = [] → print_stats trades = .closedZero) ∧
    (closed_trades trades ≠ [] →
      ∃ wr avg pf,
        print_stats trades =
          .stats (pnl_list trades).length wr (pnl_list trades).sum avg pf ∧
        (pf = none ↔ ∀ p ∈ pnl_list trades, 0 ≤ p) ∧
        (∀ q, pf = some q →
          q = (wins_of (pnl_list trades)).sum /
            |(losses_of (pnl_list trades)).sum|)) := by
  constructor
  · intro h
    simp [print_stats, h]
  · intro h
    refine ⟨(if pnl_list trades ≠ [] then
        ((wins_of (pnl_list trades)).length : ℚ) / ((pnl_list trades).length : ℚ) * 100
       else 0),
      (if pnl_list trades ≠ [] then
        (pnl_list trades).sum / ((pnl_list trades).length : ℚ)
       else 0),
      (if losses_of (pnl_list trades) ≠ [] ∧ (losses_of (pnl_list trades)).sum ≠ 0 then
        some ((wins_of (pnl_list trades)).sum / |(losses_of (pnl_list trades)).sum|)
       else none), ?_, ?_, ?_⟩
    · rw [print_stats, if_neg h]
    · by_cases hc : losses_of (pnl_list trades) ≠ [] ∧ (losses_of (pnl_list trades)).sum ≠ 0
      · rw [if_pos hc]
        constructor
        · intro hn
          exact absurd hn (by simp)
        · intro hall
          exfalso
          apply hc.2
          apply List.sum_eq_zero
          intro x hx
          have hm := (mem_losses_iff (pnl_list trades) x).mp hx
          exact le_antisymm hm.2 (hall x hm.1)
      · rw [if_neg hc]
        rw [not_and_or] at hc
        constructor
        · intro _ p hp
          rcases hc with hnil | hsum
          · rw [not_not] at hnil
            by_contra hneg
            rw [not_le] at hneg
            have hmem : p ∈ losses_of (pnl_list trades) :=
              (mem_losses_iff (pnl_list trades) p).mpr ⟨hp, le_of_lt hneg⟩
            rw [hnil] at hmem
            exact absurd hmem (List.not_mem_nil p)
          · rw [not_not] at hsum
            by_contra hneg
            rw [not_le] at hneg
            have hmem : p ∈ losses_of (pnl_list trades) :=
              (mem_losses_iff (pnl_list trades) p).mpr ⟨hp, le_of_lt hneg⟩
            have hall0 := all_zero_of_sum_zero_nonpos (losses_of (pnl_list trades))
              (fun x hx => ((mem_losses_iff (pnl_list trades) x).mp hx).2) hsum
            exact absurd (hall0 p hmem) (ne_of_lt hneg)
        · intro _
          rfl
    · by_cases hc : losses_of (pnl_list trades) ≠ [] ∧ (losses_of (pnl_list trades)).sum ≠ 0
      · rw [if_pos hc]
        intro q hq
        injection hq with hq
        exact hq.symm
      · rw [if_neg hc]
        intro q hq
        exact absurd hq (by simp)

/-- Witness for C7 at a single winning closed trade: the report carries
count 1, and the profit factor is infinite because no PnL is negative. -/
theorem C7_witness :
    ∃ wr avg pf,
      print_stats [sample_closed_trade] =
        .stats (pnl_list [sample_closed_trade]).length wr
          (pnl_list [sample_closed_trade]).sum avg pf ∧
      (pf = none ↔ ∀ p ∈ pnl_list [sample_closed_trade], 0 ≤ p) ∧
      (∀ q, pf = some q →
        q = (wins_of (pnl_list [sample_closed_trade])).sum /
          |(losses_of (pnl_list [sample_closed_trade])).sum|) :=
  (C7_amended_stats [sample_closed_trade]).2 (by
    norm_num [closed_trades, sample_closed_trade, close_trade, sample_open_trade])

/-! ## C3 and C4: trigger evaluation of a stalled watch entry -/

/-- C3: a watched symbol whose post-candle stall count has reached the
threshold, whose blocked flag (read before the candle update) is false, and
whose prospective entry — the ticker last price, falling back to the candle
close — strictly exceeds `local_high * (1 - tp_from_high_pct)` opens exactly
one trade: status OPEN, side SHORT, take-profit
`local_high * (1 - tp_from_high_pct)`, stop-loss `entry * sl_mult` (strictly
above the entry since `sl_mult > 1`), quantity `notional / entry`, funding
rate and next-funding time captured from the ticker; a cooldown is set at
the open timestamp and the watch entry is removed. -/
theorem C3_trigger_opens_trade (cfg : BotConfig)
    (tm : List (String × TickerInfo)) (now_ts : Int) (sym : String)
    (w : WatchEntry) (k : Candle)
    (hstall : cfg.stall_candles ≤ (stall_update now_ts w (safe_float k.high 0)).stall)
    (hbl : w.blocked = false)
    (hentry : (stall_update now_ts w (safe_float k.high 0)).local_high *
        (1 - cfg.tp_from_high_pct) < mark_of tm sym k)
    (hmult : 1 < cfg.sl_mult)
    (hpos : 0 < mark_of tm sym k) :
    ∃ tr,
      watch_step cfg tm now_ts sym w (some k) =
        { watch := none
          newTrade := some tr
          event := some
            { ts := now_ts, type := "TRIGGER", symbol := sym, entry := tr.entry,
              tp := tr.tp, local_high := tr.local_high, sl := some tr.sl,
              funding_rate := some tr.funding_rate_at_open }
          cooldown := some now_ts } ∧
      tr.status = .OPEN ∧
      tr.side = "SHORT" ∧
      tr.symbol = sym ∧
      tr.open_ts = now_ts ∧
      tr.entry = mark_of tm sym k ∧
      tr.tp = (stall_update now_ts w (safe_float k.high 0)).local_high *
        (1 - cfg.tp_from_high_pct) ∧
      tr.sl = tr.entry * cfg.sl_mult ∧
      tr.entry < tr.sl ∧
      tr.qty = cfg.notional_usdt / tr.entry ∧
      tr.funding_rate_at_open = (ticker_of tm sym k).funding_rate ∧
      tr.next_funding_ms_at_open = (ticker_of tm sym k).next_funding_ms := by
  have hentry' := hentry
  unfold mark_of at hentry'
  refine ⟨make_trade cfg sym (mark_of tm sym k)
      (stall_update now_ts w (safe_float k.high 0)).local_high now_ts
      (ticker_of tm sym k),
    ?_, rfl, rfl, rfl, rfl, rfl, rfl, rfl, ?_, rfl, rfl, rfl⟩
  · simp only [watch_step]
    rw [if_pos ⟨hstall, hbl⟩, if_neg (not_le.mpr hentry')]
    rfl
  · exact (lt_mul_iff_one_lt_right hpos).mpr hmult

/-- A watch entry one stalled candle short of the default threshold. -/
def sample_watch : WatchEntry where
  local_high := 10
  stall := 1
  blocked := false
  updated_ts := 0
  created_ts := 0

/-- A stalling candle: high 9 below the local high 10, close 8. -/
def candle_stall : Candle where
  start_ts := some 0
  open_p := some 9
  high := some 9
  low := some (17/2)
  close := some 8

/-- Witness for C3: the stalled entry triggers on the stalling candle (entry
8 from the candle close exceeds the take-profit level 7). -/
theorem C3_witness :
    ∃ tr,
      watch_step CFG [] 5 "XUSDT" sample_watch (some candle_stall) =
        { watch := none
          newTrade := some tr
          event := some
            { ts := 5, type := "TRIGGER", symbol := "XUSDT", entry := tr.entry,
              tp := tr.tp, local_high := tr.local_high, sl := some tr.sl,
              funding_rate := some tr.funding_rate_at_open }
          cooldown := some 5 } ∧
      tr.status = .OPEN ∧
      tr.side = "SHORT" ∧
      tr.symbol = "XUSDT" ∧
      tr.open_ts = 5 ∧
      tr.entry = mark_of [] "XUSDT" candle_stall ∧
      tr.tp = (stall_update 5 sample_watch (safe_float candle_stall.high 0)).local_high *
        (1 - CFG.tp_from_high_pct) ∧
      tr.sl = tr.entry * CFG.sl_mult ∧
      tr.entry < tr.sl ∧
      tr.qty = CFG.notional_usdt / tr.entry ∧
      tr.funding_rate_at_open = (ticker_of [] "XUSDT" candle_stall).funding_rate ∧
      tr.next_funding_ms_at_open = (ticker_of [] "XUSDT" candle_stall).next_funding_ms :=
  C3_trigger_opens_trade CFG [] 5 "XUSDT" sample_watch candle_stall
    (by norm_num [stall_update, sample_watch, candle_stall, safe_float, CFG])
    rfl
    (by norm_num [stall_update, sample_watch, candle_stall, safe_float, CFG,
      mark_of, ticker_of, lookup_ticker])
    (by norm_num [CFG])
    (by norm_num [mark_of, ticker_of, lookup_ticker, candle_stall, safe_float])

lemma stall_update_reset (now2 : Int) (w2 : WatchEntry) (high2 : ℚ)
    (hgt : w2.local_high < high2) :
    (stall_update now2 w2 high2).blocked = false ∧
    (stall_update now2 w2 high2).stall = 0 := by
  unfold stall_update
  rw [if_pos hgt]
  exact ⟨rfl, rfl⟩

/-- C4: a watched symbol whose post-candle stall count has reached the
threshold, is not blocked, and whose prospective entry is at or below
`local_high * (1 - tp_from_high_pct)` opens no trade: the entry is kept in
the watchlist with `blocked := true`, a SKIP_BELOW_TP event is recorded, no
cooldown is set; a later candle whose high exceeds the local high resets the
blocked entry to unblocked with stall count 0. -/
theorem C4_skip_below_tp (cfg : BotConfig)
    (tm : List (String × TickerInfo)) (now_ts : Int) (sym : String)
    (w : WatchEntry) (k : Candle)
    (hstall : cfg.stall_candles ≤ (stall_update now_ts w (safe_float k.high 0)).stall)
    (hbl : w.blocked = false)
    (hentry : mark_of tm sym k ≤
      (stall_update now_ts w (safe_float k.high 0)).local_high * (1 - cfg.tp_from_high_pct)) :
    watch_step cfg tm now_ts sym w (some k) =
      { watch := some { stall_update now_ts w (safe_float k.high 0) with blocked := true }
        newTrade := none
        event := some
          { ts := now_ts
            type := "SKIP_BELOW_TP"
            symbol := sym
            entry := mark_of tm sym k
            tp := (stall_update now_ts w (safe_float k.high 0)).local_high *
              (1 - cfg.tp_from_high_pct)
            local_high := (stall_update now_ts w (safe_float k.high 0)).local_high
            sl := none
            funding_rate := none }
        cooldown := none } ∧
    (∀ now2 high2,
      (stall_update now_ts w (safe_float k.high 0)).local_high < high2 →
      (stall_update now2
        { stall_update now_ts w (safe_float k.high 0) with blocked := true } high2).blocked
          = false ∧
      (stall_update now2
        { stall_update now_ts w (safe_float k.high 0) with blocked := true } high2).stall
          = 0) := by
  have hentry' := hentry
  unfold mark_of at hentry'
  constructor
  · simp only [watch_step]
    rw [if_pos ⟨hstall, hbl⟩, if_pos hentry']
    rfl
  · intro now2 high2 hgt
    exact stall_update_reset now2 _ high2 hgt

/-- A quiet candle below the local high whose close 6 is at or below the
take-profit level 7. -/
def candle_low_close : Candle where
  start_ts := some 0
  open_p := some 7
  high := some 9
  low := some 6
  close := some 6

/-- Witness for C4: the stalled entry is blocked (entry 6 at or below
take-profit level 7), stays watched, and a candle with high 11 resets it. -/
theorem C4_witness :
    watch_step CFG [] 5 "XUSDT" sample_watch (some candle_low_close) =
      { watch := some { stall_update 5 sample_watch (safe_float candle_low_close.high 0) with
          blocked := true }
        newTrade := none
        event := some
          { ts := 5
            type := "SKIP_BELOW_TP"
            symbol := "XUSDT"
            entry := mark_of [] "XUSDT" candle_low_close
            tp := (stall_update 5 sample_watch (safe_float candle_low_close.high 0)).local_high *
              (1 - CFG.tp_from_high_pct)
            local_high := (stall_update 5 sample_watch (safe_float candle_low_close.high 0)).local_high
            sl := none
            funding_rate := none }
        cooldown := none } ∧
    (stall_update 6
      { stall_update 5 sample_watch (safe_float candle_low_close.high 0) with
        blocked := true } 11).blocked = false ∧
    (stall_update 6
      { stall_update 5 sample_watch (safe_float candle_low_close.high 0) with
        blocked := true } 11).stall = 0 := by
  have h := C4_skip_below_tp CFG [] 5 "XUSDT" sample_watch candle_low_close
    (by norm_num [stall_update, sample_watch, candle_low_close, safe_float, CFG])
    rfl
    (by norm_num [stall_update, sample_watch, candle_low_close, safe_float, CFG,
      mark_of, ticker_of, lookup_ticker])
  refine ⟨h.1, h.2 6 11 ?_⟩
  norm_num [stall_update, sample_watch, candle_low_close, safe_float]

/-! ## C5: the stall/local-high state machine -/

lemma watch_run_increasing (cfg : BotConfig) (tm : List (String × TickerInfo))
    (now_ts : Int) (sym : String) (hpos0 : 0 < cfg.stall_candles) :
    ∀ (ks : List Candle) (w : WatchEntry), w.stall = 0 →
      List.Chain (fun a b => a < b) w.local_high
        (ks.map (fun k => safe_float k.high 0)) →
      (watch_run cfg tm now_ts sym w ks).2 = [] ∧
      ∃ w3, (watch_run cfg tm now_ts sym w ks).1 = some w3 ∧ w3.stall = 0 := by
  intro ks
  induction ks with
  | nil =>
    intro w h0 _
    exact ⟨rfl, w, rfl, h0⟩
  | cons k ks ih =>
    intro w h0 hchain
    rw [List.map_cons, List.chain_cons] at hchain
    obtain ⟨hgt, hchain2⟩ := hchain
    have hw1 : stall_update now_ts w (safe_float k.high 0) =
        { local_high := safe_float k.high 0, stall := 0, blocked := false,
          updated_ts := now_ts, created_ts := w.created_ts } := by
      unfold stall_update
      rw [if_pos hgt]
    have hstall0 : (stall_update now_ts w (safe_float k.high 0)).stall = 0 := by
      rw [hw1]
    have hns : ¬ (cfg.stall_candles ≤ (stall_update now_ts w (safe_float k.high 0)).stall ∧
        w.blocked = false) := by
      rw [hstall0]
      exact fun hc => absurd hc.1 (by omega)
    have hstep : watch_step cfg tm now_ts sym w (some k) =
        { watch := some (stall_update now_ts w (safe_float k.high 0)),
          newTrade := none, event := none, cooldown := none } := by
      simp only [watch_step]
      rw [if_neg hns]
    have hchain2' : List.Chain (fun a b => a < b)
        (stall_update now_ts w (safe_float k.high 0)).local_high
        (ks.map (fun k => safe_float k.high 0)) := by
      rw [hw1]
      exact hchain2
    obtain ⟨htr, w3, hw3, hst3⟩ :=
      ih (stall_update now_ts w (safe_float k.high 0)) hstall0 hchain2'
    constructor
    · simp only [watch_run, hstep, Option.toList, List.nil_append]
      exact htr
    · refine ⟨w3, ?_, hst3⟩
      simp only [watch_run, hstep]
      exact hw3

/-- C5: the per-candle update of a watch entry: a candle high strictly above
the local high resets the entry (new local high, stall 0, unblocked);
otherwise the stall count increments by exactly one and the local high and
blocked flag are untouched; the local high never decreases, neither in one
update nor across a whole watch-step; and from a fresh entry, a run of
candles with strictly increasing highs keeps the stall count at 0 and never
opens a trade. -/
theorem C5_stall_state (cfg : BotConfig) (tm : List (String × TickerInfo))
    (now_ts : Int) (sym : String) (w : WatchEntry) (high : ℚ) :
    (w.local_high < high →
      stall_update now_ts w high =
        { local_high := high, stall := 0, blocked := false,
          updated_ts := now_ts, created_ts := w.created_ts }) ∧
    (¬ w.local_high < high →
      stall_update now_ts w high =
        { local_high := w.local_high, stall := w.stall + 1, blocked := w.blocked,
          updated_ts := now_ts, created_ts := w.created_ts }) ∧
    w.local_high ≤ (stall_update now_ts w high).local_high ∧
    (∀ k w2, (watch_step cfg tm now_ts sym w (some k)).watch = some w2 →
      w.local_high ≤ w2.local_high) ∧
    (0 < cfg.stall_candles → w.stall = 0 →
      ∀ ks : List Candle,
        List.Chain (fun a b => a < b) w.local_high
          (ks.map (fun k => safe_float k.high 0)) →
        (watch_run cfg tm now_ts sym w ks).2 = [] ∧
        ∃ w3, (watch_run cfg tm now_ts sym w ks).1 = some w3 ∧ w3.stall = 0) := by
  have hmono : ∀ h : ℚ, w.local_high ≤ (stall_update now_ts w h).local_high := by
    intro h
    unfold stall_update
    split_ifs with hlt
    · exact le_of_lt hlt
    · exact le_refl _
  refine ⟨?_, ?_, hmono high, ?_, ?_⟩
  · intro hlt
    unfold stall_update
    rw [if_pos hlt]
  · intro hge
    unfold stall_update
    rw [if_neg hge]
  · intro k w2 hw
    simp only [watch_step] at hw
    split_ifs at hw
    · injection hw with hw
      rw [← hw]
      exact hmono _
    · injection hw with hw
      rw [← hw]
      exact hmono _
  · intro hpos0 h0 ks hchain
    exact watch_run_increasing cfg tm now_ts sym hpos0 ks w h0 hchain

/-- A fresh watch entry (stall 0) at local high 10. -/
def fresh_watch : WatchEntry where
  local_high := 10
  stall := 0
  blocked := false
  updated_ts := 0
  created_ts := 0

/-- A rising candle with high 11. -/
def candle_up1 : Candle where
  start_ts := some 0
  open_p := some 10
  high := some 11
  low := some 10
  close := some 11

/-- A rising candle with high 12. -/
def candle_up2 : Candle where
  start_ts := some 0
  open_p := some 11
  high := some 12
  low := some 11
  close := some 12

/-- Witness for C5: one reset step at high 11, monotonicity, and a two-candle
strictly increasing run opening no trade and ending with stall 0. -/
theorem C5_witness :
    stall_update 6 fresh_watch 11 =
      { local_high := 11, stall := 0, blocked := false,
        updated_ts := 6, created_ts := fresh_watch.created_ts } ∧
    fresh_watch.local_high ≤ (stall_update 6 fresh_watch 11).local_high ∧
    (watch_run CFG [] 6 "XUSDT" fresh_watch [candle_up1, candle_up2]).2 = [] ∧
    ∃ w3, (watch_run CFG [] 6 "XUSDT" fresh_watch [candle_up1, candle_up2]).1 = some w3 ∧
      w3.stall = 0 := by
  have h := C5_stall_state CFG [] 6 "XUSDT" fresh_watch 11
  have hchain : List.Chain (fun a b => a < b) fresh_watch.local_high
      ([candle_up1, candle_up2].map (fun k => safe_float k.high 0)) := by
    norm_num [fresh_watch, candle_up1, candle_up2, safe_float, List.chain_cons]
  have hrun := h.2.2.2.2 (by norm_num [CFG]) rfl [candle_up1, candle_up2] hchain
  exact ⟨h.1 (by norm_num [fresh_watch]), h.2.2.1, hrun.1, hrun.2⟩

end BybitShort
